import Mathlib

/-!
Verification of the ttn-webhook-server ingestion and aggregation pipeline.

This development shallowly embeds the tolerant revision of the webhook server
(the revision with the flexible zod schema, automatic fingerprint generation
and non-blocking validation; the repository also carries an earlier revision,
`server.js`, that instead rejected range- and schema-invalid payloads with 400).

Modelling conventions:
- JSON numbers are rationals (`ℚ`); JSON cannot encode NaN, so body numbers
  are plain `ℚ`.  The one place NaN can arise inside the handler is
  `parseInt` of a non-numeric string; that value is modelled as `Option Int`
  with `none` standing for NaN.
- An absent (or JSON-`null`) field is `none`; JavaScript property access on
  `undefined` raises a `TypeError`, modelled by `Except JsErr`.
- JavaScript truthiness (`x || default`, `x ? a : b`) is modelled by the
  `jsOr*` helpers: `0`, `""`, `undefined` and `null` are falsy.
- The MongoDB collection is a `List SensorReading`; `mongoCreate` models
  `SensorReading.create` together with Mongoose's client-side cast step: an
  Invalid Date in `received_at` (missing or unparseable upstream timestamp)
  or a NaN number in `frequency` is rejected with a cast error and nothing
  is written; past the cast, the unique sparse index on `unique_id` raises
  the duplicate-key error when a stored record already carries the same
  present `unique_id`.  Error message strings are abbreviated forms of the
  driver's.
- The host `new Date(string)` builtin is modelled by `parseDateJs`, a
  simplified ISO-8601 UTC parser (milliseconds since epoch); `crypto`'s
  SHA-256 is modelled bit-faithfully from FIPS 180-4 over UTF-8 bytes.
- Decimal string formatting of responses (`toFixed`) is presentation-layer
  and elided: aggregate values are kept as exact rationals.
-/

namespace TtnWebhook

/-- A JavaScript runtime error that the webhook handler's `try`/`catch` can
observe: a `TypeError` from reading a property of `undefined`, a Mongoose
cast/validation error raised by `create` (Invalid Date, NaN number), or the
MongoDB duplicate-key error raised by the unique index on `unique_id`. -/
inductive JsErr where
  | typeError (prop : String)
  | castError (path : String)
  | duplicateKey
deriving DecidableEq, Repr

/-- The `err.message` string used by the 500 response body (abbreviated
forms of the driver's messages). -/
def JsErr.message : JsErr → String
  | JsErr.typeError p => "Cannot read properties of undefined (reading " ++ p ++ ")"
  | JsErr.castError p => "SensorReading validation failed: " ++ p ++ ": cast error"
  | JsErr.duplicateKey => "E11000 duplicate key error"

/-- Models reading a property of a possibly-`undefined` object:
`undefined.prop` raises a `TypeError`. -/
def jsField {α : Type} (prop : String) : Option α → Except JsErr α
  | some a => Except.ok a
  | none => Except.error (JsErr.typeError prop)

/-- JavaScript `v || d` for numbers: `undefined`, `null` and `0` are falsy. -/
def jsOrNum (v : Option ℚ) (d : ℚ) : ℚ :=
  match v with
  | some x => if x = 0 then d else x
  | none => d

/-- JavaScript `v || d` for integer-valued numbers. -/
def jsOrInt (v : Option Int) (d : Int) : Int :=
  match v with
  | some x => if x = 0 then d else x
  | none => d

/-- JavaScript `v || d` for strings: `undefined`, `null` and `""` are falsy. -/
def jsOrStr (v : Option String) (d : String) : String :=
  match v with
  | some s => if s = "" then d else s
  | none => d

/-- JavaScript falsiness of an optional string (`!x` / `x ? _ : _`). -/
def jsFalsyStr : Option String → Bool
  | none => true
  | some s => s == ""

/-- Template-literal rendering of an optional string: `undefined`
interpolates as the text "undefined". -/
def tmplStr : Option String → String
  | some s => s
  | none => "undefined"

/-! ## The upstream webhook body (duck-typed TTN uplink event) -/

/-- `rx_metadata[i].gateway_ids` block. -/
structure GatewayIds where
  gateway_id : Option String
  eui : Option String
deriving DecidableEq, Repr

/-- `rx_metadata[i].location` block. -/
structure RxLocation where
  latitude : Option ℚ
  longitude : Option ℚ
  altitude : Option ℚ
deriving DecidableEq, Repr

/-- One `rx_metadata` array entry. -/
structure RxMeta where
  rssi : Option ℚ
  snr : Option ℚ
  gateway_ids : Option GatewayIds
  location : Option RxLocation
  received_at : Option String
deriving DecidableEq, Repr

/-- `settings.data_rate.lora` block. -/
structure LoraRate where
  bandwidth : Option ℚ
  spreading_factor : Option ℚ
deriving DecidableEq, Repr

/-- `settings.data_rate` block. -/
structure DataRate where
  lora : Option LoraRate
deriving DecidableEq, Repr

/-- `uplink_message.settings` block. -/
structure UplinkSettings where
  data_rate : Option DataRate
  frequency : Option String
deriving DecidableEq, Repr

/-- `uplink_message.decoded_payload` block. -/
structure DecodedPayload where
  temperature_celsius : Option ℚ
  humidity_percent : Option ℚ
  packet_counter : Option ℚ
deriving DecidableEq, Repr

/-- `uplink_message` block. -/
structure UplinkMessage where
  decoded_payload : Option DecodedPayload
  rx_metadata : Option (List RxMeta)
  received_at : Option String
  f_port : Option Int
  f_cnt : Option Int
  settings : Option UplinkSettings
deriving DecidableEq, Repr

/-- `end_device_ids.application_ids` block. -/
structure ApplicationIds where
  application_id : Option String
deriving DecidableEq, Repr

/-- `end_device_ids` block. -/
structure EndDeviceIds where
  device_id : Option String
  dev_eui : Option String
  application_ids : Option ApplicationIds
deriving DecidableEq, Repr

/-- The webhook request body (`req.body`). -/
structure Body where
  unique_id : Option String
  uplink_message : Option UplinkMessage
  end_device_ids : Option EndDeviceIds
deriving DecidableEq, Repr

/-- The `|| {}` fallback object for a missing `decoded_payload`. -/
def emptyPayload : DecodedPayload := ⟨none, none, none⟩

/-- The `|| {}` fallback object for a missing `rx_metadata[0]`. -/
def emptyRxMeta : RxMeta := ⟨none, none, none, none, none⟩

/-- The `|| {}` fallback object for missing `settings`. -/
def emptySettings : UplinkSettings := ⟨none, none⟩

/-! ## parseInt and Date builtins -/

/-- Hex-digit test used by `parseIntJs` (radix 16 after a `0x` prefix). -/
def isDigitBase (base : Nat) (c : Char) : Bool :=
  if base = 16 then c.isDigit || ('a' ≤ c && c ≤ 'f') || ('A' ≤ c && c ≤ 'F')
  else c.isDigit

/-- Numeric value of a (hex) digit character. -/
def hexVal (c : Char) : Nat :=
  if c.isDigit then c.toNat - 48
  else if 'a' ≤ c && c ≤ 'f' then c.toNat - 87
  else c.toNat - 55

/-- Models the JavaScript `parseInt(s)` builtin with unspecified radix:
skip leading whitespace, optional sign, optional `0x`or `0X` hex prefix,
then the longest digit run; no digits at all gives NaN, modelled `none`. -/
def parseIntJs (s : String) : Option Int :=
  let cs := s.data.dropWhile (fun c => c = ' ' || c = '\t' || c = '\n' || c = '\r')
  let signed : Int × List Char :=
    match cs with
    | '-' :: rest => (-1, rest)
    | '+' :: rest => (1, rest)
    | _ => (1, cs)
  let based : Nat × List Char :=
    match signed.2 with
    | '0' :: 'x' :: rest => (16, rest)
    | '0' :: 'X' :: rest => (16, rest)
    | _ => (10, signed.2)
  let ds := based.2.takeWhile (isDigitBase based.1)
  if ds = [] then none
  else some (signed.1 * (ds.foldl (fun acc c => acc * based.1 + hexVal c) 0 : Nat))

/-- Read exactly `n` decimal digits, accumulating their value. -/
def readDigits : Nat → List Char → Nat → Option (Nat × List Char)
  | 0, cs, acc => some (acc, cs)
  | n + 1, c :: cs, acc =>
      if c.isDigit then readDigits n cs (acc * 10 + (c.toNat - 48)) else none
  | _ + 1, [], _ => none

/-- Consume one expected character. -/
def expectChar (c : Char) : List Char → Option (List Char)
  | x :: xs => if x = c then some xs else none
  | [] => none

/-- Milliseconds encoded by the first (up to three) fractional-second digits. -/
def msOfFrac (ds : List Char) : Nat :=
  match ds with
  | [] => 0
  | [a] => (a.toNat - 48) * 100
  | [a, b] => (a.toNat - 48) * 100 + (b.toNat - 48) * 10
  | a :: b :: c :: _ => (a.toNat - 48) * 100 + (b.toNat - 48) * 10 + (c.toNat - 48)

/-- Optional `.digits` fractional-second part; returns its millisecond value
and the rest of the input. -/
def readFraction (cs : List Char) : Nat × List Char :=
  match cs with
  | '.' :: rest => (msOfFrac (rest.takeWhile Char.isDigit), rest.dropWhile Char.isDigit)
  | _ => (0, cs)

/-- Days since 1970-01-01 of a proleptic-Gregorian civil date (for years from
1970 on, the only region the service receives). -/
def daysFromCivil (y m d : Nat) : Nat :=
  let y' := if m ≤ 2 then y - 1 else y
  let era := y' / 400
  let yoe := y' - era * 400
  let doy := (153 * (if 2 < m then m - 3 else m + 9) + 2) / 5 + d - 1
  let doe := yoe * 365 + yoe / 4 - yoe / 100 + doy
  era * 146097 + doe - 719468

/-- Models the host `new Date(string)` builtin on the ISO-8601 UTC profile
the network server emits (`YYYY-MM-DD`, optionally `THH:MM:SS`, optional
fractional seconds, optional `Z`): milliseconds since the epoch, or `none`
for an invalid date (in particular `new Date(undefined)`). -/
def parseDateJs : Option String → Option Int
  | none => none
  | some s => do
      let cs := s.data
      let (y, cs) ← readDigits 4 cs 0
      let cs ← expectChar '-' cs
      let (mo, cs) ← readDigits 2 cs 0
      let cs ← expectChar '-' cs
      let (d, cs) ← readDigits 2 cs 0
      if cs = [] then
        pure ((86400000 * daysFromCivil y mo d : Nat) : Int)
      else do
        let cs ← expectChar 'T' cs
        let (hh, cs) ← readDigits 2 cs 0
        let cs ← expectChar ':' cs
        let (mi, cs) ← readDigits 2 cs 0
        let cs ← expectChar ':' cs
        let (ss, cs) ← readDigits 2 cs 0
        let fr := readFraction cs
        if fr.2 = [] ∨ fr.2 = ['Z'] then
          pure (((((daysFromCivil y mo d * 24 + hh) * 60 + mi) * 60 + ss) * 1000 + fr.1 : Nat) : Int)
        else none

/-! ## SHA-256 (FIPS 180-4), the model of node's `crypto.createHash("sha256")` -/

/-- The eight 32-bit words of the running SHA-256 hash state. -/
structure Hash8 where
  a : Nat
  b : Nat
  c : Nat
  d : Nat
  e : Nat
  f : Nat
  g : Nat
  h : Nat

/-- SHA-256 initial hash value. -/
def initH : Hash8 :=
  ⟨1779033703, 3144134277, 1013904242, 2773480762, 1359893119, 2600822924, 528734635, 1541459225⟩

/-- The 64 SHA-256 round constants. -/
def Kconst : List Nat :=
  [1116352408, 1899447441, 3049323471, 3921009573,
   961987163, 1508970993, 2453635748, 2870763221,
   3624381080, 310598401, 607225278, 1426881987,
   1925078388, 2162078206, 2614888103, 3248222580,
   3835390401, 4022224774, 264347078, 604807628,
   770255983, 1249150122, 1555081692, 1996064986,
   2554220882, 2821834349, 2952996808, 3210313671,
   3336571891, 3584528711, 113926993, 338241895,
   666307205, 773529912, 1294757372, 1396182291,
   1695183700, 1986661051, 2177026350, 2456956037,
   2730485921, 2820302411, 3259730800, 3345764771,
   3516065817, 3600352804, 4094571909, 275423344,
   430227734, 506948616, 659060556, 883997877,
   958139571, 1322822218, 1537002063, 1747873779,
   1955562222, 2024104815, 2227730452, 2361852424,
   2428436474, 2756734187, 3204031479, 3329325298]

/-- 32-bit right rotation of a word below `2 ^ 32`. -/
def rotr (k x : Nat) : Nat := x / 2 ^ k + x % 2 ^ k * 2 ^ (32 - k)

/-- 32-bit right shift. -/
def shr (k x : Nat) : Nat := x / 2 ^ k

/-- SHA-256 `Σ₀`. -/
def bigSigma0 (x : Nat) : Nat := rotr 2 x ^^^ rotr 13 x ^^^ rotr 22 x

/-- SHA-256 `Σ₁`. -/
def bigSigma1 (x : Nat) : Nat := rotr 6 x ^^^ rotr 11 x ^^^ rotr 25 x

/-- SHA-256 `σ₀`. -/
def smallSigma0 (x : Nat) : Nat := rotr 7 x ^^^ rotr 18 x ^^^ shr 3 x

/-- SHA-256 `σ₁`. -/
def smallSigma1 (x : Nat) : Nat := rotr 17 x ^^^ rotr 19 x ^^^ shr 10 x

/-- SHA-256 `Ch(e,f,g)`; `4294967295 - e` is 32-bit complement of `e < 2 ^ 32`. -/
def chFn (e f g : Nat) : Nat := (e &&& f) ^^^ ((4294967295 - e) &&& g)

/-- SHA-256 `Maj(a,b,c)`. -/
def majFn (a b c : Nat) : Nat := ((a &&& b) ^^^ (a &&& c)) ^^^ (b &&& c)

/-- Append the next message-schedule word. -/
def extendStep (w : List Nat) : List Nat :=
  let i := w.length
  w ++ [(w.getD (i - 16) 0 + smallSigma0 (w.getD (i - 15) 0) + w.getD (i - 7) 0 +
         smallSigma1 (w.getD (i - 2) 0)) % 4294967296]

/-- Iterate `extendStep` (48 times extends 16 words to the full schedule). -/
def extendN : Nat → List Nat → List Nat
  | 0, w => w
  | n + 1, w => extendN n (extendStep w)

/-- Split a byte list into 64-byte blocks (fuelled structural recursion; the
fuel is instantiated with the list length, an upper bound on the block count). -/
def chunk64 : Nat → List Nat → List (List Nat)
  | 0, _ => []
  | _, [] => []
  | fuel + 1, l => l.take 64 :: chunk64 fuel (l.drop 64)

/-- Big-endian 32-bit words of a byte list. -/
def bytesToWords : List Nat → List Nat
  | b0 :: b1 :: b2 :: b3 :: rest =>
      (((b0 * 256 + b1) * 256 + b2) * 256 + b3) :: bytesToWords rest
  | _ => []

/-- Big-endian 64-bit length field of the SHA-256 padding. -/
def lenBytes8 (L : Nat) : List Nat :=
  [L / 2 ^ 56 % 256, L / 2 ^ 48 % 256, L / 2 ^ 40 % 256, L / 2 ^ 32 % 256,
   L / 2 ^ 24 % 256, L / 2 ^ 16 % 256, L / 2 ^ 8 % 256, L % 256]

/-- SHA-256 message padding: `0x80`, zeros to 56 mod 64, 8-byte bit length. -/
def padMsg (msg : List Nat) : List Nat :=
  msg ++ 128 :: List.replicate ((64 - (msg.length + 9) % 64) % 64) 0 ++ lenBytes8 (msg.length * 8)

/-- One SHA-256 compression round. -/
def roundStep (s : Hash8) (wk : Nat × Nat) : Hash8 :=
  let t1 := (s.h + bigSigma1 s.e + chFn s.e s.f s.g + wk.2 + wk.1) % 4294967296
  let t2 := (bigSigma0 s.a + majFn s.a s.b s.c) % 4294967296
  ⟨(t1 + t2) % 4294967296, s.a, s.b, s.c, (s.d + t1) % 4294967296, s.e, s.f, s.g⟩

/-- Compress one 64-byte block into the running hash. -/
def compressBlock (hs : Hash8) (block : List Nat) : Hash8 :=
  let ws := extendN 48 (bytesToWords block)
  let st := (ws.zip Kconst).foldl roundStep hs
  ⟨(hs.a + st.a) % 4294967296, (hs.b + st.b) % 4294967296, (hs.c + st.c) % 4294967296,
   (hs.d + st.d) % 4294967296, (hs.e + st.e) % 4294967296, (hs.f + st.f) % 4294967296,
   (hs.g + st.g) % 4294967296, (hs.h + st.h) % 4294967296⟩

/-- The eight digest words as a list. -/
def hash8ToList (s : Hash8) : List Nat := [s.a, s.b, s.c, s.d, s.e, s.f, s.g, s.h]

/-- SHA-256 digest (eight 32-bit words) of a byte message. -/
def sha256Words (msg : List Nat) : List Nat :=
  hash8ToList ((chunk64 (padMsg msg).length (padMsg msg)).foldl compressBlock initH)

/-- Lower-case hex digit. -/
def hexDigit (n : Nat) : Char := if n < 10 then Char.ofNat (48 + n) else Char.ofNat (87 + n)

/-- Eight hex characters of one 32-bit word. -/
def wordHex (w : Nat) : List Char :=
  [hexDigit (w / 16 ^ 7 % 16), hexDigit (w / 16 ^ 6 % 16), hexDigit (w / 16 ^ 5 % 16),
   hexDigit (w / 16 ^ 4 % 16), hexDigit (w / 16 ^ 3 % 16), hexDigit (w / 16 ^ 2 % 16),
   hexDigit (w / 16 % 16), hexDigit (w % 16)]

/-- The 64 hex characters of the SHA-256 digest of a byte message. -/
def sha256HexChars (msg : List Nat) : List Char := ((sha256Words msg).map wordHex).flatten

/-- UTF-8 encoding of one character. -/
def utf8Bytes (c : Char) : List Nat :=
  let n := c.toNat
  if n < 128 then [n]
  else if n < 2048 then [192 + n / 64, 128 + n % 64]
  else if n < 65536 then [224 + n / 4096, 128 + n / 64 % 64, 128 + n % 64]
  else [240 + n / 262144, 128 + n / 4096 % 64, 128 + n / 64 % 64, 128 + n % 64]

/-- UTF-8 bytes of a string (what `hash.update(string)` consumes). -/
def strBytes (s : String) : List Nat := (s.data.map utf8Bytes).flatten

/-- Hex SHA-256 digest of a string, as `crypto.createHash("sha256").update(s).digest("hex")`. -/
def sha256Hex (s : String) : String := String.mk (sha256HexChars (strBytes s))

/-! ## Fingerprinter -/

/-- The server's `generateUniqueId(body)`: SHA-256 of the template string
`deviceId-fcnt-timestamp` truncated to its first 16 hex characters.  Reading
`uplink.f_cnt` with `uplink_message` undefined, or `end_device_ids.device_id`
with `end_device_ids` undefined, raises a `TypeError`. -/
def generateUniqueId (b : Body) : Except JsErr String :=
  match b.uplink_message with
  | none => Except.error (JsErr.typeError "f_cnt")
  | some uplink =>
    match b.end_device_ids with
    | none => Except.error (JsErr.typeError "device_id")
    | some eids =>
      let fcnt := jsOrInt uplink.f_cnt 0
      let data := tmplStr eids.device_id ++ "-" ++ toString fcnt ++ "-" ++ tmplStr uplink.received_at
      Except.ok (String.mk ((sha256HexChars (strBytes data)).take 16))

/-- `body.unique_id || generateUniqueId(body)`: an explicit truthy token is
used verbatim, otherwise the fingerprint is derived. -/
def uniqueIdOf (b : Body) : Except JsErr String :=
  match b.unique_id with
  | some t => if t = "" then generateUniqueId b else Except.ok t
  | none => generateUniqueId b

/-! ## Validator (the flexible zod `ttnWebhookSchema`) -/

/-- Validity of one `rx_metadata` entry under the zod schema (presence of
`rssi`, `snr`, `gateway_ids.gateway_id`, `gateway_ids.eui`, `received_at`;
an ill-typed field is modelled as absent). -/
def rxEntryValid (m : RxMeta) : Bool :=
  m.rssi.isSome && m.snr.isSome &&
  (match m.gateway_ids with
   | none => false
   | some g => g.gateway_id.isSome && g.eui.isSome) &&
  m.received_at.isSome

/-- The tolerant revision's `ttnWebhookSchema.parse(body)` outcome: required
`uplink_message.received_at` and the `end_device_ids` identity block; the
other blocks optional but, when present, complete.  The handler only logs the
outcome — it never changes control flow. -/
def structValid (b : Body) : Bool :=
  (match b.uplink_message with
   | none => false
   | some u =>
     (match u.decoded_payload with
      | none => true
      | some p => p.temperature_celsius.isSome && p.humidity_percent.isSome &&
                  p.packet_counter.isSome) &&
     (match u.rx_metadata with
      | none => true
      | some l => l.all rxEntryValid) &&
     u.received_at.isSome &&
     (match u.settings with
      | none => true
      | some st =>
        match st.data_rate with
        | none => true
        | some dr =>
          match dr.lora with
          | none => true
          | some lr => lr.bandwidth.isSome && lr.spreading_factor.isSome)) &&
  (match b.end_device_ids with
   | none => false
   | some e =>
     e.device_id.isSome && e.dev_eui.isSome &&
     (match e.application_ids with
      | none => false
      | some a => a.application_id.isSome))

/-! ## The persisted record and the document builder -/

/-- Stored `gateway_location` sub-document. -/
structure StoredLocation where
  latitude : Option ℚ
  longitude : Option ℚ
  altitude : ℚ
deriving DecidableEq, Repr

/-- The persisted `SensorReading` document, field for field the `document`
object built by the webhook handler (the schema's `created_at` server-clock
default is not modelled; no claim concerns it). -/
structure SensorReading where
  device_id : Option String
  dev_eui : Option String
  application_id : Option String
  temperature_celsius : ℚ
  humidity_percent : ℚ
  packet_counter : ℚ
  f_port : Int
  f_cnt : Int
  gateway_id : String
  gateway_eui : String
  rssi : ℚ
  snr : ℚ
  spreading_factor : ℚ
  bandwidth : ℚ
  frequency : Option Int
  gateway_location : Option StoredLocation
  received_at : Option Int
  unique_id : Option String
  full_payload : Body
deriving DecidableEq, Repr

/-- The `settings.frequency ? parseInt(settings.frequency) : 0` expression
of the document builder: 0 only for a falsy (absent, null or empty)
frequency, otherwise `parseInt` of the string — possibly NaN (`none`). -/
def frequencyOf (settings : UplinkSettings) : Option Int :=
  match settings.frequency with
  | some s => if s = "" then some 0 else parseIntJs s
  | none => some 0

/-- The handler's extraction and `document` construction, in source order:
`uplink.decoded_payload` is read first (TypeError if `uplink_message` is
undefined), then `body.end_device_ids.device_id` and
`...application_ids.application_id` (TypeError if those blocks are
undefined); every optional field falls back through JavaScript truthiness. -/
def docOf (b : Body) (uid : String) : Except JsErr SensorReading :=
  match b.uplink_message with
  | none => Except.error (JsErr.typeError "decoded_payload")
  | some uplink =>
    let payload := uplink.decoded_payload.getD emptyPayload
    let rxMetadata := (uplink.rx_metadata.getD []).headD emptyRxMeta
    let settings := uplink.settings.getD emptySettings
    let receivedAt := parseDateJs uplink.received_at
    let temperature := jsOrNum payload.temperature_celsius 0
    let humidity := jsOrNum payload.humidity_percent 0
    match b.end_device_ids with
    | none => Except.error (JsErr.typeError "device_id")
    | some eids =>
      match eids.application_ids with
      | none => Except.error (JsErr.typeError "application_id")
      | some appIds =>
        Except.ok {
          device_id := eids.device_id
          dev_eui := eids.dev_eui
          application_id := appIds.application_id
          temperature_celsius := temperature
          humidity_percent := humidity
          packet_counter := jsOrNum payload.packet_counter 0
          f_port := jsOrInt uplink.f_port 1
          f_cnt := jsOrInt uplink.f_cnt 0
          gateway_id := jsOrStr (rxMetadata.gateway_ids.bind GatewayIds.gateway_id) "unknown"
          gateway_eui := jsOrStr (rxMetadata.gateway_ids.bind GatewayIds.eui) "unknown"
          rssi := jsOrNum rxMetadata.rssi 0
          snr := jsOrNum rxMetadata.snr 0
          spreading_factor :=
            jsOrNum ((settings.data_rate.bind DataRate.lora).bind LoraRate.spreading_factor) 0
          bandwidth := jsOrNum ((settings.data_rate.bind DataRate.lora).bind LoraRate.bandwidth) 0
          frequency := frequencyOf settings
          gateway_location :=
            rxMetadata.location.map (fun loc =>
              { latitude := loc.latitude
                longitude := loc.longitude
                altitude := jsOrNum loc.altitude 0 })
          received_at := receivedAt
          unique_id := some uid
          full_payload := b }

/-! ## Store -/

/-- `SensorReading.create(document)`.  Mongoose first casts the document
against the schema: `received_at` is typed `Date`, so an Invalid Date
(missing or unparseable upstream timestamp, modelled `none`) is rejected,
and `frequency` is typed `Number`, so a NaN (modelled `none`) is rejected —
in both cases with a cast error and nothing written.  Past the cast, the
unique sparse index on `unique_id` raises the duplicate-key error exactly
when the collection already holds a record with the same present
`unique_id`.  A failed insert leaves no trace. -/
def mongoCreate (store : List SensorReading) (doc : SensorReading) :
    Except JsErr (List SensorReading) :=
  if doc.received_at = none then
    Except.error (JsErr.castError "received_at")
  else if doc.frequency = none then
    Except.error (JsErr.castError "frequency")
  else if doc.unique_id.isSome ∧ ∃ d ∈ store, d.unique_id = doc.unique_id then
    Except.error JsErr.duplicateKey
  else
    Except.ok (store ++ [doc])

/-! ## POST /ttn handler -/

/-- Responses the webhook endpoint can produce. -/
inductive TtnResp where
  | ok200 (message : String) (unique_id : String)
  | err500 (error : String)
deriving DecidableEq, Repr

/-- The body of the `try` block of the `POST /ttn` handler: fingerprint,
advisory duplicate check (`findOne`), extraction/`document` construction,
`create`.  The zod validation in between is wrapped in its own `try`/`catch`
that only logs, so it does not appear in the dataflow.  To expose the
check-then-insert race, the store is snapshotted twice: `checkStore` is its
state when `findOne` runs and `insertStore` its state when `create` runs
(sequential execution is the special case `checkStore = insertStore`). -/
def postTtnBody (checkStore insertStore : List SensorReading) (b : Body) :
    Except JsErr (TtnResp × List SensorReading) :=
  match uniqueIdOf b with
  | Except.error e => Except.error e
  | Except.ok uid =>
    if ∃ d ∈ checkStore, d.unique_id = some uid then
      Except.ok (TtnResp.ok200 "Duplicata ignorada" uid, insertStore)
    else
      match docOf b uid with
      | Except.error e => Except.error e
      | Except.ok doc =>
        match mongoCreate insertStore doc with
        | Except.error e => Except.error e
        | Except.ok store' => Except.ok (TtnResp.ok200 "Dados armazenados" uid, store')

/-- The `POST /ttn` handler with its surrounding `catch`: any raised error
becomes a 500 response carrying `err.message`, and the store is left as the
insert attempt left it. -/
def postTtnRace (checkStore insertStore : List SensorReading) (b : Body) :
    TtnResp × List SensorReading :=
  match postTtnBody checkStore insertStore b with
  | Except.ok r => r
  | Except.error e => (TtnResp.err500 e.message, insertStore)

/-- The handler in the race-free (sequential) case. -/
def postTtn (store : List SensorReading) (b : Body) : TtnResp × List SensorReading :=
  postTtnRace store store b

/-! ## Read-side endpoints -/

/-- Responses of the GET endpoints: 400 for a missing `device_id`, 404 for
no data, 200 with a payload. -/
inductive ApiResp (α : Type) where
  | badRequest400 (error : String)
  | notFound404 (error : String)
  | ok200 (a : α)
deriving DecidableEq, Repr

/-- MongoDB descending-`received_at` comparison; a missing or invalid date
sorts below every real date. -/
def dateLe : Option Int → Option Int → Bool
  | none, _ => true
  | some _, none => false
  | some x, some y => decide (x ≤ y)

/-- Insert into a descending-by-`received_at` list. -/
def insertByDate (r : SensorReading) : List SensorReading → List SensorReading
  | [] => [r]
  | x :: xs => if dateLe x.received_at r.received_at then r :: x :: xs else x :: insertByDate r xs

/-- The `.sort({ received_at: -1 })` cursor order. -/
def sortByDateDesc : List SensorReading → List SensorReading
  | [] => []
  | x :: xs => insertByDate x (sortByDateDesc xs)

/-- `GET /api/sensor/latest?device_id=`: newest reading of the device, 404
when it has none. -/
def latestGet (store : List SensorReading) (device_id : Option String) :
    ApiResp SensorReading :=
  if jsFalsyStr device_id then ApiResp.badRequest400 "device_id é obrigatório"
  else
    match sortByDateDesc (store.filter (fun r => r.device_id == some (device_id.getD ""))) with
    | [] => ApiResp.notFound404 "Nenhuma leitura encontrada"
    | r :: _ => ApiResp.ok200 r

/-- min/max/avg summary of one measurement over the matched window. -/
structure StatsTriple where
  min : ℚ
  max : ℚ
  avg : ℚ
deriving DecidableEq, Repr

/-- The `$group` result of one nonempty window: head/tail folds for `$min`,
`$max` and `$avg` (the empty case is unreachable from `statsGet`). -/
def aggTriple (l : List ℚ) : StatsTriple :=
  match l with
  | [] => ⟨0, 0, 0⟩
  | x :: xs => ⟨xs.foldl min x, xs.foldl max x, (xs.foldl (fun a b => a + b) x) / (xs.length + 1)⟩

/-- The statistics response payload (exact rationals; the `toFixed` decimal
formatting of the JSON body is presentation-layer and elided). -/
structure StatsData where
  period : String
  temperature : StatsTriple
  humidity : StatsTriple
  rssi : StatsTriple
  snr : StatsTriple
  packet_count : Nat
  success_rate : ℚ
deriving DecidableEq, Repr

/-- Window length in milliseconds of a `period` query value (`switch` with
default 24h). -/
def periodMs (p : String) : Int :=
  if p = "1h" then 3600000
  else if p = "24h" then 86400000
  else if p = "7d" then 604800000
  else if p = "30d" then 2592000000
  else 86400000

/-- `GET /api/sensor/statistics?device_id=&period=`: aggregate over the
window `[now - periodMs, now]`, 404 when the window holds no reading; the
expected-packet heuristic assumes one packet every 2 minutes (120000 ms). -/
def statsGet (store : List SensorReading) (device_id : Option String)
    (period : Option String) (now : Int) : ApiResp StatsData :=
  if jsFalsyStr device_id then ApiResp.badRequest400 "device_id é obrigatório"
  else
    let p := period.getD "24h"
    let startDate := now - periodMs p
    let matched := store.filter (fun r =>
      r.device_id == some (device_id.getD "") &&
      (match r.received_at with
       | some t => decide (startDate ≤ t)
       | none => false))
    match matched with
    | [] => ApiResp.notFound404 "Nenhum dado encontrado"
    | x :: xs =>
      let expectedPackets := (now - startDate) / 120000
      let pc := (x :: xs).length
      ApiResp.ok200 {
        period := p
        temperature := aggTriple ((x :: xs).map (fun r => r.temperature_celsius))
        humidity := aggTriple ((x :: xs).map (fun r => r.humidity_percent))
        rssi := aggTriple ((x :: xs).map (fun r => r.rssi))
        snr := aggTriple ((x :: xs).map (fun r => r.snr))
        packet_count := pc
        success_rate :=
          if 0 < expectedPackets then ((pc : ℚ) / (expectedPackets : ℚ)) * 100 else 0 }

/-- The signal-quality classification of a mean RSSI, exactly the handler's
`if`/`else if` chain initialised with "poor". -/
def qualityOf (avgRssi : ℚ) : String :=
  if avgRssi > -70 then "excellent"
  else if avgRssi > -80 then "good"
  else if avgRssi > -90 then "fair"
  else "poor"

/-- The per-band sample counts of the quality endpoint. -/
structure SignalStrength where
  excellent : Nat
  good : Nat
  fair : Nat
  poor : Nat
deriving DecidableEq, Repr

/-- The quality response payload. -/
structure QualityData where
  current_rssi : ℚ
  avg_rssi : ℚ
  quality : String
  signal_strength : SignalStrength
  total_readings : Nat
deriving DecidableEq, Repr

/-- The `limit` query value of the quality endpoint: default 100, else
`parseInt` of the query string (possibly NaN, modelled `none`). -/
def qualityLimit (limitQ : Option String) : Option Int :=
  match limitQ with
  | none => some 100
  | some s => parseIntJs s

/-- MongoDB cursor `.limit(n)` semantics: 0 means no limit and a negative
limit caps the fetch at `|n|` documents; a NaN limit is modelled as no limit
(no claim depends on the NaN case). -/
def applyLimit (n : Option Int) (l : List SensorReading) : List SensorReading :=
  match n with
  | none => l
  | some k => if k = 0 then l else l.take k.natAbs

/-- The 200 payload of the quality endpoint over the nonempty fetched sample
`r :: rs`: mean RSSI, its band classification, per-band sample counts, and
the newest RSSI as `current_rssi`. -/
def qualityPayload (r : SensorReading) (rs : List SensorReading) : QualityData :=
  let rssiValues := (r :: rs).map (fun x => x.rssi)
  let avgRssi := (rssiValues.foldl (fun a b => a + b) 0) / (rssiValues.length : ℚ)
  { current_rssi := r.rssi
    avg_rssi := avgRssi
    quality := qualityOf avgRssi
    signal_strength := {
      excellent := rssiValues.countP (fun v => decide (v > -70))
      good := rssiValues.countP (fun v => decide (v > -80) && decide (v ≤ -70))
      fair := rssiValues.countP (fun v => decide (v > -90) && decide (v ≤ -80))
      poor := rssiValues.countP (fun v => decide (v ≤ -90)) }
    total_readings := (r :: rs).length }

/-- `GET /api/sensor/quality?device_id=&limit=`: classify the mean RSSI of
the newest `limit` (default 100) readings, 404 when the device has none. -/
def qualityGet (store : List SensorReading) (device_id limitQ : Option String) :
    ApiResp QualityData :=
  if jsFalsyStr device_id then ApiResp.badRequest400 "device_id é obrigatório"
  else
    match applyLimit (qualityLimit limitQ) (sortByDateDesc (store.filter
        (fun r => r.device_id == some (device_id.getD "")))) with
    | [] => ApiResp.notFound404 "Nenhuma leitura encontrada"
    | r :: rs => ApiResp.ok200 (qualityPayload r rs)

/-! ## The fingerprint as the specification words it

For the refinement comparison of claim C7 only: this definition follows the
spec sentence "hash of the concatenation of device_id, f_cnt, and the raw
upstream timestamp string, truncated to a fixed short length" literally,
with a plain separator-free concatenation.  It is to be compared with
`generateUniqueId`, which hashes the dash-separated template string. -/

/-- Claim-literal fingerprint: SHA-256 of the plain concatenation
`device_id ++ f_cnt ++ timestamp`, truncated to 16 hex characters. -/
def claimFingerprint (deviceId : String) (fcnt : Int) (timestamp : String) : String :=
  String.mk ((sha256HexChars (strBytes (deviceId ++ toString fcnt ++ timestamp))).take 16)

/-! ## Concrete inputs used by witnesses and counterexamples -/

/-- A body with no content at all (placeholder audit payload). -/
def emptyBody : Body := ⟨none, none, none⟩

/-- A handcrafted stored record for device `dev1` with RSSI −75 and
fingerprint `abc`. -/
def sampleDoc : SensorReading :=
  { device_id := some "dev1", dev_eui := some "eui1", application_id := some "app1",
    temperature_celsius := 21, humidity_percent := 55, packet_counter := 3,
    f_port := 1, f_cnt := 7, gateway_id := "gw", gateway_eui := "gweui",
    rssi := -75, snr := 9, spreading_factor := 7, bandwidth := 125000,
    frequency := some 868300000, gateway_location := none,
    received_at := some 1700000000000, unique_id := some "abc",
    full_payload := emptyBody }

/-- A delivery carrying the already-stored fingerprint `abc`. -/
def dupBody : Body := { unique_id := some "abc", uplink_message := none, end_device_ids := none }

/-- A stored record holding fingerprint `dup1` (the winner of the race). -/
def dupStoredDoc : SensorReading :=
  { sampleDoc with device_id := some "dev2", unique_id := some "dup1" }

/-- The losing concurrent delivery of fingerprint `dup1`. -/
def raceBody : Body :=
  { unique_id := some "dup1",
    uplink_message := some ⟨none, none, some "2024-03-04T05:06:07Z", none, none, none⟩,
    end_device_ids := some ⟨some "dev2", some "eui2", some ⟨some "app2"⟩⟩ }

/-- A delivery with a decoded temperature of 150 °C (out of range). -/
def hotBody : Body :=
  { unique_id := some "w3",
    uplink_message := some ⟨some ⟨some 150, some 50, some 1⟩, none,
                            some "2024-01-01T00:00:00Z", none, some 1, none⟩,
    end_device_ids := some ⟨some "d3", some "e3", some ⟨some "a3"⟩⟩ }

/-- A delivery whose device identity block is missing entirely. -/
def noIdentityBody : Body :=
  { unique_id := some "u4",
    uplink_message := some ⟨none, none, some "2024-01-02T03:04:05Z", none, none, none⟩,
    end_device_ids := none }

/-- A schema-drifted delivery: `dev_eui` missing, so structural validation
fails, but the identity block itself is navigable. -/
def driftedBody : Body :=
  { unique_id := some "w4",
    uplink_message := some ⟨none, none, some "2024-01-02T03:04:05Z", none, none, none⟩,
    end_device_ids := some ⟨some "d4", none, some ⟨some "a4"⟩⟩ }

/-- A delivery with every optional field absent. -/
def minimalBody : Body :=
  { unique_id := some "w5",
    uplink_message := some ⟨none, none, some "2024-02-02T00:00:00Z", none, none, none⟩,
    end_device_ids := some ⟨some "d5", some "e5", some ⟨some "a5"⟩⟩ }

/-- A mixed-presence delivery: `decoded_payload` present with only the
temperature, one `rx_metadata` entry with only RSSI and a `gateway_ids`
block lacking `gateway_id`, `settings` present but empty, `f_cnt` present,
`f_port` absent. -/
def mixedBody : Body :=
  { unique_id := some "w5m",
    uplink_message := some ⟨some ⟨some 20, none, none⟩,
                            some [⟨some (-75), none, some ⟨none, some "gw-eui"⟩, none,
                                   some "2024-02-05T00:00:00Z"⟩],
                            some "2024-02-05T00:00:00Z", none, some 9, some ⟨none, none⟩⟩,
    end_device_ids := some ⟨some "d5m", some "e5m", some ⟨some "a5m"⟩⟩ }

/-- A delivery whose uplink timestamp is missing: structural failure whose
document carries an Invalid Date. -/
def noTimestampBody : Body :=
  { unique_id := some "u4b",
    uplink_message := some ⟨none, none, none, none, none, none⟩,
    end_device_ids := some ⟨some "d4b", some "e4b", some ⟨some "a4b"⟩⟩ }

/-- A delivery whose `settings.frequency` is the non-numeric string "abc". -/
def alphaFreqBody : Body :=
  { unique_id := some "w6",
    uplink_message := some ⟨none, none, some "2024-02-03T00:00:00Z", none, none,
                            some ⟨none, some "abc"⟩⟩,
    end_device_ids := some ⟨some "d6", some "e6", some ⟨some "a6"⟩⟩ }

/-- A delivery with no explicit idempotency token, so the fingerprint is
derived from `device_id = sensor-1`, `f_cnt = 7` and the raw timestamp. -/
def derivedBody : Body :=
  { unique_id := none,
    uplink_message := some ⟨none, none, some "2024-05-01T10:00:00Z", none, some 7, none⟩,
    end_device_ids := some ⟨some "sensor-1", some "e7", some ⟨some "a7"⟩⟩ }

/-! ## Helper lemmas -/

/-- A present JSON number survives the `|| 0` fallback unchanged (JSON
cannot encode NaN, and `0 || 0` is still `0`). -/
theorem jsOrNum_some (x : ℚ) : jsOrNum (some x) 0 = x := by
  by_cases hx : x = 0 <;> simp [jsOrNum, hx]

/-- `Except.map` on a success value. -/
theorem exceptMap_ok {α β : Type} (f : α → β) (x : α) :
    (Except.ok x : Except JsErr α).map f = Except.ok (f x) := rfl

/-- A cursor limit over an empty fetch is empty, whatever the limit. -/
theorem applyLimit_nil (n : Option Int) : applyLimit n [] = [] := by
  cases n <;> simp [applyLimit]

/-- FIPS 180-4 test vector: the embedded hash is the real SHA-256 (empty
message). -/
theorem sha256Hex_empty :
    sha256Hex "" = "e3b0c44298fc1c149afbf4c8996fb92427ae41e4649b934ca495991b7852b855" := by
  decide

/-- FIPS 180-4 test vector: the embedded hash is the real SHA-256 ("abc"). -/
theorem sha256Hex_abc :
    sha256Hex "abc" = "ba7816bf8f01cfea414140de5dae2223b00361a396177a9cb410ff61f20015ad" := by
  decide

/-- A SHA-256 hex digest always has 64 characters. -/
theorem sha256HexChars_length (msg : List Nat) : (sha256HexChars msg).length = 64 := by
  simp [sha256HexChars, sha256Words, hash8ToList, wordHex]

/-- Evaluation of the document builder once the three mandatory property
accesses succeed. -/
theorem docOf_eq (b : Body) (u : UplinkMessage) (e : EndDeviceIds) (a : ApplicationIds)
    (uid : String)
    (hu : b.uplink_message = some u) (he : b.end_device_ids = some e)
    (ha : e.application_ids = some a) :
    docOf b uid = Except.ok {
      device_id := e.device_id
      dev_eui := e.dev_eui
      application_id := a.application_id
      temperature_celsius := jsOrNum (u.decoded_payload.getD emptyPayload).temperature_celsius 0
      humidity_percent := jsOrNum (u.decoded_payload.getD emptyPayload).humidity_percent 0
      packet_counter := jsOrNum (u.decoded_payload.getD emptyPayload).packet_counter 0
      f_port := jsOrInt u.f_port 1
      f_cnt := jsOrInt u.f_cnt 0
      gateway_id := jsOrStr (((u.rx_metadata.getD []).headD emptyRxMeta).gateway_ids.bind
        GatewayIds.gateway_id) "unknown"
      gateway_eui := jsOrStr (((u.rx_metadata.getD []).headD emptyRxMeta).gateway_ids.bind
        GatewayIds.eui) "unknown"
      rssi := jsOrNum ((u.rx_metadata.getD []).headD emptyRxMeta).rssi 0
      snr := jsOrNum ((u.rx_metadata.getD []).headD emptyRxMeta).snr 0
      spreading_factor := jsOrNum (((u.settings.getD emptySettings).data_rate.bind
        DataRate.lora).bind LoraRate.spreading_factor) 0
      bandwidth := jsOrNum (((u.settings.getD emptySettings).data_rate.bind
        DataRate.lora).bind LoraRate.bandwidth) 0
      frequency := frequencyOf (u.settings.getD emptySettings)
      gateway_location := ((u.rx_metadata.getD []).headD emptyRxMeta).location.map (fun loc =>
        { latitude := loc.latitude, longitude := loc.longitude,
          altitude := jsOrNum loc.altitude 0 })
      received_at := parseDateJs u.received_at
      unique_id := some uid
      full_payload := b } := by
  simp only [docOf, hu, he, ha]

/-- The four RSSI bands of the quality endpoint partition any sample. -/
theorem countBands (l : List ℚ) :
    l.countP (fun v => decide (v > -70)) +
    l.countP (fun v => decide (v > -80) && decide (v ≤ -70)) +
    l.countP (fun v => decide (v > -90) && decide (v ≤ -80)) +
    l.countP (fun v => decide (v ≤ -90)) = l.length := by
  have t1 : (if (true : Bool) = true then (1 : Nat) else 0) = 1 := rfl
  have t0 : (if (false : Bool) = true then (1 : Nat) else 0) = 0 := rfl
  induction l with
  | nil => rfl
  | cons x xs ih =>
    simp only [List.countP_cons, List.length_cons]
    rcases lt_or_le (-70 : ℚ) x with h1 | h1
    · have b1 : decide (x > (-70 : ℚ)) = true := by simp [h1]
      have b2 : (decide (x > (-80 : ℚ)) && decide (x ≤ (-70 : ℚ))) = false := by
        simp only [Bool.and_eq_false_iff, decide_eq_false_iff_not, not_le]
        exact Or.inr h1
      have b3 : (decide (x > (-90 : ℚ)) && decide (x ≤ (-80 : ℚ))) = false := by
        simp only [Bool.and_eq_false_iff, decide_eq_false_iff_not, not_le]
        exact Or.inr (by linarith)
      have b4 : decide (x ≤ (-90 : ℚ)) = false := by
        simp only [decide_eq_false_iff_not, not_le]
        linarith
      rw [b1, b2, b3, b4, t1, t0]
      omega
    · rcases lt_or_le (-80 : ℚ) x with h2 | h2
      · have b1 : decide (x > (-70 : ℚ)) = false := by
          simp only [gt_iff_lt, decide_eq_false_iff_not, not_lt]
          exact h1
        have b2 : (decide (x > (-80 : ℚ)) && decide (x ≤ (-70 : ℚ))) = true := by
          simp only [Bool.and_eq_true, decide_eq_true_eq]
          exact ⟨h2, h1⟩
        have b3 : (decide (x > (-90 : ℚ)) && decide (x ≤ (-80 : ℚ))) = false := by
          simp only [Bool.and_eq_false_iff, decide_eq_false_iff_not, not_le]
          exact Or.inr h2
        have b4 : decide (x ≤ (-90 : ℚ)) = false := by
          simp only [decide_eq_false_iff_not, not_le]
          linarith
        rw [b1, b2, b3, b4, t1, t0]
        omega
      · rcases lt_or_le (-90 : ℚ) x with h3 | h3
        · have b1 : decide (x > (-70 : ℚ)) = false := by
            simp only [gt_iff_lt, decide_eq_false_iff_not, not_lt]
            exact h1
          have b2 : (decide (x > (-80 : ℚ)) && decide (x ≤ (-70 : ℚ))) = false := by
            simp only [Bool.and_eq_false_iff, decide_eq_false_iff_not, not_lt, gt_iff_lt]
            exact Or.inl h2
          have b3 : (decide (x > (-90 : ℚ)) && decide (x ≤ (-80 : ℚ))) = true := by
            simp only [Bool.and_eq_true, decide_eq_true_eq]
            exact ⟨h3, h2⟩
          have b4 : decide (x ≤ (-90 : ℚ)) = false := by
            simp only [decide_eq_false_iff_not, not_le]
            linarith
          rw [b1, b2, b3, b4, t1, t0]
          omega
        · have b1 : decide (x > (-70 : ℚ)) = false := by
            simp only [gt_iff_lt, decide_eq_false_iff_not, not_lt]
            exact h1
          have b2 : (decide (x > (-80 : ℚ)) && decide (x ≤ (-70 : ℚ))) = false := by
            simp only [Bool.and_eq_false_iff, decide_eq_false_iff_not, not_lt, gt_iff_lt]
            exact Or.inl h2
          have b3 : (decide (x > (-90 : ℚ)) && decide (x ≤ (-80 : ℚ))) = false := by
            simp only [Bool.and_eq_false_iff, decide_eq_false_iff_not, not_lt, gt_iff_lt]
            exact Or.inl h3
          have b4 : decide (x ≤ (-90 : ℚ)) = true := by
            simp only [decide_eq_true_eq]
            exact h3
          rw [b1, b2, b3, b4, t1, t0]
          omega

/-- Classification value on the open excellent band. -/
theorem qualityOf_excellent {m : ℚ} (h : -70 < m) : qualityOf m = "excellent" := by
  unfold qualityOf
  rw [if_pos h]

/-- Classification value on the good band. -/
theorem qualityOf_good {m : ℚ} (h1 : m ≤ -70) (h2 : -80 < m) : qualityOf m = "good" := by
  unfold qualityOf
  rw [if_neg (not_lt.mpr h1), if_pos h2]

/-- Classification value on the fair band. -/
theorem qualityOf_fair {m : ℚ} (h1 : m ≤ -80) (h2 : -90 < m) : qualityOf m = "fair" := by
  unfold qualityOf
  rw [if_neg (not_lt.mpr (by linarith)), if_neg (not_lt.mpr h1), if_pos h2]

/-- Classification value on the closed poor band. -/
theorem qualityOf_poor {m : ℚ} (h : m ≤ -90) : qualityOf m = "poor" := by
  unfold qualityOf
  rw [if_neg (not_lt.mpr (by linarith)), if_neg (not_lt.mpr (by linarith)),
      if_neg (not_lt.mpr h)]

/-- The four bands exhaust the rationals. -/
theorem qualityOf_cases (m : ℚ) :
    (-70 < m ∧ qualityOf m = "excellent") ∨
    (-80 < m ∧ m ≤ -70 ∧ qualityOf m = "good") ∨
    (-90 < m ∧ m ≤ -80 ∧ qualityOf m = "fair") ∨
    (m ≤ -90 ∧ qualityOf m = "poor") := by
  rcases lt_or_le (-70 : ℚ) m with h | h
  · exact Or.inl ⟨h, qualityOf_excellent h⟩
  rcases lt_or_le (-80 : ℚ) m with h2 | h2
  · exact Or.inr (Or.inl ⟨h2, h, qualityOf_good h h2⟩)
  rcases lt_or_le (-90 : ℚ) m with h3 | h3
  · exact Or.inr (Or.inr (Or.inl ⟨h3, h2, qualityOf_fair h2 h3⟩))
  · exact Or.inr (Or.inr (Or.inr ⟨h3, qualityOf_poor h3⟩))

/-- When the fingerprint is fresh and the document builder succeeds, the
handler appends exactly that document and acknowledges with 200. -/
theorem postTtn_stores (store : List SensorReading) (b : Body) (uid : String)
    (doc : SensorReading)
    (hid : uniqueIdOf b = Except.ok uid)
    (hdoc : docOf b uid = Except.ok doc)
    (hdocu : doc.unique_id = some uid)
    (hdate : doc.received_at ≠ none)
    (hfreq : doc.frequency ≠ none)
    (hdup : ¬ ∃ d ∈ store, d.unique_id = some uid) :
    postTtn store b = (TtnResp.ok200 "Dados armazenados" uid, store ++ [doc]) := by
  have hins : mongoCreate store doc = Except.ok (store ++ [doc]) := by
    unfold mongoCreate
    rw [if_neg hdate, if_neg hfreq, if_neg]
    intro hcon
    exact hdup (hdocu ▸ hcon.2)
  have hb : postTtnBody store store b =
      Except.ok (TtnResp.ok200 "Dados armazenados" uid, store ++ [doc]) := by
    simp only [postTtnBody, hid]
    rw [if_neg hdup]
    simp only [hdoc, hins]
  simp only [postTtn, postTtnRace, hb]

/-! ## Claim theorems -/

/-- C1: for a delivery whose fingerprint equals the `unique_id` of a record
already in the store, the handler responds 200 with the duplicate-suppression
message and creates no new record (the store is returned unchanged). -/
theorem c1_duplicate_suppressed (store : List SensorReading) (b : Body) (u : String)
    (hid : uniqueIdOf b = Except.ok u)
    (hdup : ∃ d ∈ store, d.unique_id = some u) :
    postTtn store b = (TtnResp.ok200 "Duplicata ignorada" u, store) := by
  have hb : postTtnBody store store b =
      Except.ok (TtnResp.ok200 "Duplicata ignorada" u, store) := by
    simp only [postTtnBody, hid]
    rw [if_pos hdup]
  simp only [postTtn, postTtnRace, hb]

/-- Witness for C1: a concrete duplicate delivery against a one-record store. -/
theorem c1_witness :
    postTtn [sampleDoc] dupBody = (TtnResp.ok200 "Duplicata ignorada" "abc", [sampleDoc]) :=
  c1_duplicate_suppressed [sampleDoc] dupBody "abc" rfl (by decide)

/-- C2 (bug demonstration): a delivery that passed the advisory existence
check against an empty snapshot but whose insert runs after a concurrent
twin was stored (the losing side of the check-then-insert race) is answered
with a 500 error response carrying the duplicate-key message — not with the
benign duplicate acknowledgment the design requires; the store keeps exactly
one record. -/
theorem c2_race_surfaces_500 :
    postTtnRace [] [dupStoredDoc] raceBody =
      (TtnResp.err500 "E11000 duplicate key error", [dupStoredDoc]) := by
  decide

/-- C3: an event whose decoded temperature or humidity is out of the
physical range is not rejected for range reasons: the handler persists the
record with the raw out-of-range values unchanged and acknowledges 200.  The
hypotheses restrict to deliveries that are otherwise storable — identity and
uplink blocks navigable, timestamp castable to a valid Date, frequency not
NaN, fingerprint fresh — which are failure modes orthogonal to range
validation. -/
theorem c3_out_of_range_persisted (store : List SensorReading) (b : Body)
    (u : UplinkMessage) (p : DecodedPayload) (e : EndDeviceIds) (a : ApplicationIds)
    (tv hv : ℚ) (uid : String)
    (hu : b.uplink_message = some u)
    (hp : u.decoded_payload = some p)
    (ht : p.temperature_celsius = some tv)
    (hh : p.humidity_percent = some hv)
    (_hrange : tv < -40 ∨ 80 < tv ∨ hv < 0 ∨ 100 < hv)
    (he : b.end_device_ids = some e)
    (ha : e.application_ids = some a)
    (hdate : parseDateJs u.received_at ≠ none)
    (hfreq : frequencyOf (u.settings.getD emptySettings) ≠ none)
    (hid : uniqueIdOf b = Except.ok uid)
    (hdup : ¬ ∃ d ∈ store, d.unique_id = some uid) :
    ∃ doc, docOf b uid = Except.ok doc ∧
      doc.temperature_celsius = tv ∧ doc.humidity_percent = hv ∧
      postTtn store b = (TtnResp.ok200 "Dados armazenados" uid, store ++ [doc]) := by
  have hdoc := docOf_eq b u e a uid hu he ha
  refine ⟨_, hdoc, ?_, ?_, postTtn_stores store b uid _ hid hdoc rfl hdate hfreq hdup⟩
  · simp only [hp, Option.getD_some, ht]
    exact jsOrNum_some tv
  · simp only [hp, Option.getD_some, hh]
    exact jsOrNum_some hv

/-- Witness for C3: temperature 150 °C is stored unchanged and answered 200. -/
theorem c3_witness :
    ((80 : ℚ) < 150) ∧ (postTtn [] hotBody).1 = TtnResp.ok200 "Dados armazenados" "w3" := by
  obtain ⟨doc, hdoc, htv, hhv, hpost⟩ :=
    c3_out_of_range_persisted [] hotBody _ _ _ _ 150 50 "w3" rfl rfl rfl rfl
      (Or.inr (Or.inl (by norm_num))) rfl rfl (by decide) (by decide) rfl (by simp)
  exact ⟨by norm_num, by rw [hpost]⟩

/-- C4 counterexample: a delivery whose device identity block is missing
entirely fails structural validation, and the handler does not persist it
with defaults — reading `end_device_ids.device_id` raises and the delivery is
answered 500 with nothing stored. -/
theorem c4_counterexample :
    structValid noIdentityBody = false ∧
    postTtn [] noIdentityBody =
      (TtnResp.err500 "Cannot read properties of undefined (reading device_id)", []) := by
  decide

/-- C4 (amended): a structural-validation failure by itself never blocks
processing and is never answered with a data-quality rejection: whenever the
identity block (`end_device_ids` with `application_ids`) and `uplink_message`
are navigable, the uplink timestamp casts to a valid Date and the frequency
is not NaN, a delivery failing the zod validation is still normalized with
defaults, persisted and acknowledged 200.  (Outside those hypotheses the
delivery is answered 500 and nothing is stored: a missing identity block
raises a TypeError — see the counterexample — and a missing/unparseable
timestamp is rejected by the Store's Date cast — see
`postTtn_invalid_date_500`.) -/
theorem c4_tolerant_persist (store : List SensorReading) (b : Body)
    (u : UplinkMessage) (e : EndDeviceIds) (a : ApplicationIds) (uid : String)
    (_hv : structValid b = false)
    (hu : b.uplink_message = some u)
    (he : b.end_device_ids = some e)
    (ha : e.application_ids = some a)
    (hdate : parseDateJs u.received_at ≠ none)
    (hfreq : frequencyOf (u.settings.getD emptySettings) ≠ none)
    (hid : uniqueIdOf b = Except.ok uid)
    (hdup : ¬ ∃ d ∈ store, d.unique_id = some uid) :
    ∃ doc, docOf b uid = Except.ok doc ∧
      postTtn store b = (TtnResp.ok200 "Dados armazenados" uid, store ++ [doc]) := by
  have hdoc := docOf_eq b u e a uid hu he ha
  exact ⟨_, hdoc, postTtn_stores store b uid _ hid hdoc rfl hdate hfreq hdup⟩

/-- The other 500 boundary of the amended claim C4: a structurally-failing
delivery whose uplink timestamp is missing builds a document with an Invalid
Date, which the Store's cast rejects — 500, nothing stored. -/
theorem postTtn_invalid_date_500 :
    structValid noTimestampBody = false ∧
    postTtn [] noTimestampBody =
      (TtnResp.err500 "SensorReading validation failed: received_at: cast error", []) := by
  decide

/-- Witness for C4: a delivery failing validation (missing `dev_eui`) is
persisted and acknowledged 200. -/
theorem c4_witness :
    structValid driftedBody = false ∧
    (postTtn [] driftedBody).1 = TtnResp.ok200 "Dados armazenados" "w4" := by
  obtain ⟨doc, hdoc, hpost⟩ :=
    c4_tolerant_persist [] driftedBody _ _ _ "w4" (by decide) rfl rfl rfl (by decide)
      (by decide) rfl (by simp)
  exact ⟨by decide, by rw [hpost]⟩

/-- C5 counterexample: with every optional field absent, the normalized
document carries `f_port = 1`, not the claimed 0. -/
theorem c5_counterexample :
    (docOf minimalBody "w5").map SensorReading.f_port = Except.ok 1 ∧
    (docOf minimalBody "w5").map SensorReading.f_port ≠ Except.ok 0 := by
  refine ⟨rfl, fun h => ?_⟩
  exact absurd (Except.ok.inj h) (by decide)

/-- C5 (amended): for every event whose identity and uplink blocks are
navigable, each absent optional field — independently of the presence of the
others — maps to its documented default in the normalized document: 0 for
the missing numeric fields except `f_port`, whose default is 1; "unknown"
for the missing gateway identifiers; `null` geolocation.  A measurement is
"missing" also when its whole enclosing block (`decoded_payload`,
`rx_metadata`, its first entry's `gateway_ids`, `settings.data_rate.lora`)
is absent. -/
theorem c5_defaults (b : Body) (u : UplinkMessage) (e : EndDeviceIds) (a : ApplicationIds)
    (uid : String)
    (hu : b.uplink_message = some u)
    (he : b.end_device_ids = some e)
    (ha : e.application_ids = some a) :
    ∃ doc, docOf b uid = Except.ok doc ∧
      ((u.decoded_payload.getD emptyPayload).temperature_celsius = none →
        doc.temperature_celsius = 0) ∧
      ((u.decoded_payload.getD emptyPayload).humidity_percent = none →
        doc.humidity_percent = 0) ∧
      ((u.decoded_payload.getD emptyPayload).packet_counter = none →
        doc.packet_counter = 0) ∧
      (u.f_port = none → doc.f_port = 1) ∧
      (u.f_cnt = none → doc.f_cnt = 0) ∧
      (((u.rx_metadata.getD []).headD emptyRxMeta).rssi = none → doc.rssi = 0) ∧
      (((u.rx_metadata.getD []).headD emptyRxMeta).snr = none → doc.snr = 0) ∧
      ((((u.settings.getD emptySettings).data_rate.bind DataRate.lora).bind
          LoraRate.spreading_factor) = none → doc.spreading_factor = 0) ∧
      ((((u.settings.getD emptySettings).data_rate.bind DataRate.lora).bind
          LoraRate.bandwidth) = none → doc.bandwidth = 0) ∧
      ((u.settings.getD emptySettings).frequency = none → doc.frequency = some 0) ∧
      (((u.rx_metadata.getD []).headD emptyRxMeta).gateway_ids.bind GatewayIds.gateway_id =
          none → doc.gateway_id = "unknown") ∧
      (((u.rx_metadata.getD []).headD emptyRxMeta).gateway_ids.bind GatewayIds.eui =
          none → doc.gateway_eui = "unknown") ∧
      (((u.rx_metadata.getD []).headD emptyRxMeta).location = none →
        doc.gateway_location = none) := by
  obtain hdoc := docOf_eq b u e a uid hu he ha
  refine ⟨_, hdoc, ?_, ?_, ?_, ?_, ?_, ?_, ?_, ?_, ?_, ?_, ?_, ?_, ?_⟩ <;>
    (intro hx; simp only [frequencyOf, hx]; try rfl)

/-- Witness for C5 at a concrete mixed-presence delivery: each absent field
gets its default (humidity, packet_counter, snr, spreading_factor,
bandwidth, frequency, gateway_id, geolocation, f_port) while the present
ones (temperature 20, RSSI −75, f_cnt 9, gateway_eui) pass through. -/
theorem c5_witness :
    (docOf mixedBody "w5m").map SensorReading.f_port = Except.ok 1 ∧
    (docOf mixedBody "w5m").map SensorReading.humidity_percent = Except.ok 0 ∧
    (docOf mixedBody "w5m").map SensorReading.packet_counter = Except.ok 0 ∧
    (docOf mixedBody "w5m").map SensorReading.snr = Except.ok 0 ∧
    (docOf mixedBody "w5m").map SensorReading.spreading_factor = Except.ok 0 ∧
    (docOf mixedBody "w5m").map SensorReading.bandwidth = Except.ok 0 ∧
    (docOf mixedBody "w5m").map SensorReading.frequency = Except.ok (some 0) ∧
    (docOf mixedBody "w5m").map SensorReading.gateway_id = Except.ok "unknown" ∧
    (docOf mixedBody "w5m").map SensorReading.gateway_location =
      Except.ok (none : Option StoredLocation) ∧
    (docOf mixedBody "w5m").map SensorReading.temperature_celsius = Except.ok 20 ∧
    (docOf mixedBody "w5m").map SensorReading.rssi = Except.ok (-75) ∧
    (docOf mixedBody "w5m").map SensorReading.f_cnt = Except.ok 9 ∧
    (docOf mixedBody "w5m").map SensorReading.gateway_eui = Except.ok "gw-eui" := by
  obtain ⟨doc, hdoc, ht, hh, hpc, hfp, hfc, hrs, hsn, hsf, hbw, hfr, hgi, hge, hlo⟩ :=
    c5_defaults mixedBody _ _ _ "w5m" rfl rfl rfl
  refine ⟨?_, ?_, ?_, ?_, ?_, ?_, ?_, ?_, ?_, ?_, ?_, ?_, ?_⟩
  · rw [hdoc, exceptMap_ok]
    exact congrArg Except.ok (hfp rfl)
  · rw [hdoc, exceptMap_ok]
    exact congrArg Except.ok (hh rfl)
  · rw [hdoc, exceptMap_ok]
    exact congrArg Except.ok (hpc rfl)
  · rw [hdoc, exceptMap_ok]
    exact congrArg Except.ok (hsn rfl)
  · rw [hdoc, exceptMap_ok]
    exact congrArg Except.ok (hsf rfl)
  · rw [hdoc, exceptMap_ok]
    exact congrArg Except.ok (hbw rfl)
  · rw [hdoc, exceptMap_ok]
    exact congrArg Except.ok (hfr rfl)
  · rw [hdoc, exceptMap_ok]
    exact congrArg Except.ok (hgi rfl)
  · rw [hdoc, exceptMap_ok]
    exact congrArg Except.ok (hlo rfl)
  · rfl
  · rfl
  · rfl
  · rfl

/-- C6 counterexample: a present non-numeric `settings.frequency` string
("abc") is normalized to NaN (`parseInt` of a digit-free string, modelled
`none`), not to the claimed 0. -/
theorem c6_counterexample :
    (docOf alphaFreqBody "w6").map SensorReading.frequency = Except.ok (none : Option Int) ∧
    (docOf alphaFreqBody "w6").map SensorReading.frequency ≠ Except.ok (some (0 : Int)) := by
  refine ⟨rfl, fun h => ?_⟩
  exact absurd (Except.ok.inj h) (by decide)

/-- C6 (amended): a present non-empty `settings.frequency` string is passed
through `parseInt` unchanged — a non-numeric string therefore yields NaN
(`none`), as `parseIntJs "abc" = none` shows; only an absent or empty
(falsy) frequency defaults to 0. -/
theorem c6_frequency_parse (b : Body) (u : UplinkMessage) (e : EndDeviceIds)
    (a : ApplicationIds) (st : UplinkSettings) (s : String) (uid : String)
    (hu : b.uplink_message = some u)
    (he : b.end_device_ids = some e)
    (ha : e.application_ids = some a)
    (hset : u.settings = some st)
    (hf : st.frequency = some s)
    (hs : s ≠ "") :
    (docOf b uid).map SensorReading.frequency = Except.ok (parseIntJs s) ∧
    parseIntJs "abc" = none := by
  constructor
  · rw [docOf_eq b u e a uid hu he ha]
    simp only [Except.map, frequencyOf, hset, Option.getD_some, hf]
    rw [if_neg hs]
  · rfl

/-- Witness for C6 at a concrete delivery carrying frequency "abc". -/
theorem c6_witness :
    (docOf alphaFreqBody "w6").map SensorReading.frequency = Except.ok (parseIntJs "abc") ∧
    parseIntJs "abc" = none :=
  c6_frequency_parse alphaFreqBody _ _ _ _ "abc" "w6" rfl rfl rfl rfl rfl (by decide)

/-- A 16-character truncation of a 64-character digest has length 16. -/
theorem take16_length (cs : List Char) (h : cs.length = 64) :
    (String.mk (cs.take 16)).length = 16 := by
  show (cs.take 16).length = 16
  rw [List.length_take, h]
  omega

/-- C7 counterexample: the derived fingerprint is the hash of the
dash-separated template string, which differs from the hash of the plain
separator-free concatenation that the claim describes. -/
theorem c7_counterexample :
    uniqueIdOf derivedBody = Except.ok (String.mk ((sha256HexChars (strBytes
      "sensor-1-7-2024-05-01T10:00:00Z")).take 16)) ∧
    uniqueIdOf derivedBody ≠
      Except.ok (claimFingerprint "sensor-1" 7 "2024-05-01T10:00:00Z") := by
  have h1 : uniqueIdOf derivedBody = Except.ok (String.mk ((sha256HexChars (strBytes
      "sensor-1-7-2024-05-01T10:00:00Z")).take 16)) := rfl
  refine ⟨h1, fun h => ?_⟩
  rw [h1] at h
  exact absurd (Except.ok.inj h) (by decide)

/-- C7 (amended): without an explicit token the fingerprint is the SHA-256
hash of the dash-separated concatenation of `device_id`, `f_cnt` and the raw
upstream timestamp (template `deviceId-fcnt-timestamp`), truncated to 16 hex
characters — deterministic and of fixed length 16; an explicit non-empty
token is used verbatim. -/
theorem c7_fingerprint (b : Body) (u : UplinkMessage) (e : EndDeviceIds)
    (hu : b.uplink_message = some u)
    (he : b.end_device_ids = some e)
    (hnone : b.unique_id = none) :
    uniqueIdOf b = Except.ok (String.mk ((sha256HexChars (strBytes
        (tmplStr e.device_id ++ "-" ++ toString (jsOrInt u.f_cnt 0) ++ "-" ++
         tmplStr u.received_at))).take 16)) ∧
    (∀ s, uniqueIdOf b = Except.ok s → s.length = 16) ∧
    (∀ t : String, t ≠ "" → uniqueIdOf { b with unique_id := some t } = Except.ok t) := by
  have hgen : uniqueIdOf b = Except.ok (String.mk ((sha256HexChars (strBytes
      (tmplStr e.device_id ++ "-" ++ toString (jsOrInt u.f_cnt 0) ++ "-" ++
       tmplStr u.received_at))).take 16)) := by
    simp only [uniqueIdOf, hnone, generateUniqueId, hu, he]
  refine ⟨hgen, ?_, ?_⟩
  · intro s hs
    rw [hgen] at hs
    rw [← Except.ok.inj hs]
    exact take16_length _ (sha256HexChars_length _)
  · intro t ht
    simp only [uniqueIdOf]
    rw [if_neg ht]

/-- Witness for C7: the derived fingerprint of a concrete delivery has
length 16, and an explicit token "tok" is used verbatim. -/
theorem c7_witness :
    (uniqueIdOf derivedBody).map String.length = Except.ok 16 ∧
    uniqueIdOf { derivedBody with unique_id := some "tok" } = Except.ok "tok" := by
  obtain ⟨h1, h2, h3⟩ := c7_fingerprint derivedBody _ _ rfl rfl rfl
  refine ⟨?_, h3 "tok" (by decide)⟩
  rw [h1]
  simp only [Except.map]
  exact congrArg Except.ok (h2 _ h1)

/-- C8: for a device with zero stored readings, the latest, statistics and
quality endpoints each answer 404 — never a degenerate statistic over the
empty set. -/
theorem c8_empty_404 (store : List SensorReading) (d : String)
    (period limitQ : Option String) (now : Int)
    (hd : d ≠ "")
    (hnone : ∀ r ∈ store, r.device_id ≠ some d) :
    latestGet store (some d) = ApiResp.notFound404 "Nenhuma leitura encontrada" ∧
    statsGet store (some d) period now = ApiResp.notFound404 "Nenhum dado encontrado" ∧
    qualityGet store (some d) limitQ = ApiResp.notFound404 "Nenhuma leitura encontrada" := by
  have hfal : jsFalsyStr (some d) = false := by
    simp [jsFalsyStr, hd]
  have hfil1 : store.filter (fun r => r.device_id == some d) = [] := by
    rw [List.filter_eq_nil_iff]
    intro r hr
    simp only [beq_iff_eq]
    exact hnone r hr
  have hfil2 : ∀ q : SensorReading → Bool,
      store.filter (fun r => r.device_id == some d && q r) = [] := by
    intro q
    rw [List.filter_eq_nil_iff]
    intro r hr
    simp only [Bool.and_eq_true, beq_iff_eq, not_and]
    exact fun hdev _ => hnone r hr hdev
  refine ⟨?_, ?_, ?_⟩
  · simp [latestGet, hfal, hfil1, sortByDateDesc]
  · simp [statsGet, hfal, hfil2]
  · simp [qualityGet, hfal, hfil1, sortByDateDesc, applyLimit_nil]

/-- Witness for C8 at the empty store. -/
theorem c8_witness :
    latestGet [] (some "dev") = ApiResp.notFound404 "Nenhuma leitura encontrada" ∧
    statsGet [] (some "dev") none 0 = ApiResp.notFound404 "Nenhum dado encontrado" ∧
    qualityGet [] (some "dev") none = ApiResp.notFound404 "Nenhuma leitura encontrada" :=
  c8_empty_404 [] "dev" none none 0 (by decide) (by simp)

/-- C9: the classification of the mean RSSI uses exact half-open bands —
excellent iff above −70, good iff in (−80, −70], fair iff in (−90, −80],
poor iff at most −90; in particular −70 classifies good and −90 poor. -/
theorem c9_quality_bands (m : ℚ) :
    (qualityOf m = "excellent" ↔ -70 < m) ∧
    (qualityOf m = "good" ↔ -80 < m ∧ m ≤ -70) ∧
    (qualityOf m = "fair" ↔ -90 < m ∧ m ≤ -80) ∧
    (qualityOf m = "poor" ↔ m ≤ -90) ∧
    qualityOf (-70 : ℚ) = "good" ∧ qualityOf (-90 : ℚ) = "poor" := by
  have hg : qualityOf (-70 : ℚ) = "good" := qualityOf_good (by norm_num) (by norm_num)
  have hpo : qualityOf (-90 : ℚ) = "poor" := qualityOf_poor (by norm_num)
  refine ⟨?_, ?_, ?_, ?_, hg, hpo⟩ <;>
    rcases qualityOf_cases m with ⟨h1, hv⟩ | ⟨h1, h2, hv⟩ | ⟨h1, h2, hv⟩ | ⟨h1, hv⟩ <;>
    rw [hv] <;>
    constructor <;>
    intro hx <;>
    first
      | rfl
      | linarith
      | exact absurd hx (by decide)
      | exact ⟨by linarith, by linarith⟩

/-- The partition identity on the payload of a nonempty sample. -/
theorem qualityPayload_partition (x : SensorReading) (xs : List SensorReading) :
    (qualityPayload x xs).signal_strength.excellent +
      (qualityPayload x xs).signal_strength.good +
      (qualityPayload x xs).signal_strength.fair +
      (qualityPayload x xs).signal_strength.poor = (qualityPayload x xs).total_readings := by
  simp only [qualityPayload]
  have h := countBands ((x :: xs).map (fun d => d.rssi))
  rwa [List.length_map] at h

/-- C10: whenever the quality endpoint answers 200, the four per-band counts
partition the sample — their sum equals `total_readings`. -/
theorem c10_partition (store : List SensorReading) (dq lq : Option String) (r : QualityData)
    (h : qualityGet store dq lq = ApiResp.ok200 r) :
    r.signal_strength.excellent + r.signal_strength.good + r.signal_strength.fair +
      r.signal_strength.poor = r.total_readings := by
  unfold qualityGet at h
  by_cases hf : jsFalsyStr dq = true
  · rw [if_pos hf] at h
    exact absurd h (by simp)
  · rw [if_neg hf] at h
    split at h
    · exact absurd h (by simp)
    · injection h with h'
      subst h'
      exact qualityPayload_partition _ _

/-- Witness for C10 at a concrete one-record store: the sample's RSSI −75
falls in the good band alone, and 0 + 1 + 0 + 0 = 1 = total_readings. -/
theorem c10_witness :
    qualityGet [sampleDoc] (some "dev1") none = ApiResp.ok200 (qualityPayload sampleDoc []) ∧
    (qualityPayload sampleDoc []).signal_strength = ⟨0, 1, 0, 0⟩ ∧
    (qualityPayload sampleDoc []).total_readings = 1 ∧
    (qualityPayload sampleDoc []).signal_strength.excellent +
      (qualityPayload sampleDoc []).signal_strength.good +
      (qualityPayload sampleDoc []).signal_strength.fair +
      (qualityPayload sampleDoc []).signal_strength.poor =
      (qualityPayload sampleDoc []).total_readings :=
  ⟨rfl, by decide, rfl, c10_partition [sampleDoc] (some "dev1") none _ rfl⟩

end TtnWebhook
